import Mathlib

/-!
Verification of `pogoda-alert` (pogoda_alert.py), a weather-alert script:
it derives a boolean "rain expected in the next 24h" signal from hourly
forecast data, manages a Telegram subscriber list via /start and /stop
commands, and notifies subscribers on state changes.

The shallow embedding below translates the pure decision logic of the script
into Lean: Python floats become rationals (`ℚ`), Python ints become `Int`,
JSON values that may be absent or malformed become `Option`/`PyVal`,
and the effectful `main` becomes a function from an explicit input record
to an output record (final state plus the lists of messages each send
block would emit).
-/

namespace PogodaAlert

/-- A (simplified) Python value as it appears in the forecast JSON arrays:
a number, a string, or `null`/missing. -/
inductive PyVal where
  | num (q : ℚ)
  | str (s : String)
  | none
  deriving DecidableEq, Repr

/-- Value of a list of decimal digit characters, most significant first. -/
def digitsVal (cs : List Char) : Nat :=
  cs.foldl (fun n c => n * 10 + (c.toNat - 48)) 0

/-- Parse an unsigned decimal literal (`"12"`, `"12.5"`, `".5"`, `"12."`),
as accepted by Python float conversion on finite decimal strings
(exponents, `inf` and `nan` are outside this model). -/
def parseUnsigned (cs : List Char) : Option ℚ :=
  match cs.splitOn '.' with
  | [ip] =>
      if ip ≠ [] ∧ ip.all Char.isDigit then some ((digitsVal ip : ℚ)) else Option.none
  | [ip, fp] =>
      if (ip ≠ [] ∨ fp ≠ []) ∧ ip.all Char.isDigit ∧ fp.all Char.isDigit then
        some ((digitsVal ip : ℚ) + (digitsVal fp : ℚ) / (10 : ℚ) ^ fp.length)
      else Option.none
  | _ => Option.none

/-- Surrounding whitespace removed from a character list (Python `str.strip`
with no argument). -/
def stripChars (cs : List Char) : List Char :=
  ((cs.dropWhile Char.isWhitespace).reverse.dropWhile Char.isWhitespace).reverse

/-- Python `float(x)` as a partial function: `some q` when the conversion
succeeds, `Option.none` when it raises (`None`, non-numeric strings). -/
def floatOf (x : PyVal) : Option ℚ :=
  match x with
  | PyVal.num q => some q
  | PyVal.none => Option.none
  | PyVal.str s =>
      match stripChars s.data with
      | '-' :: r => (parseUnsigned r).map (fun q => -q)
      | '+' :: r => parseUnsigned r
      | r => parseUnsigned r

/-- Safe conversion to float, `_to_float(x, default)`: returns `default`
whenever `float(x)` would raise. -/
def to_float (x : PyVal) (default : ℚ) : ℚ :=
  (floatOf x).getD default

/-- Python `int()` applied to a float: truncation toward zero. -/
def pyInt (q : ℚ) : Int :=
  if q < 0 then ⌈q⌉ else ⌊q⌋

/-- Indices of samples whose timestamp `t` satisfies
`now ≤ t ≤ now + 24h`, as computed by `next24_indices(times, now)`.
Timestamps are modelled as integer hours on a common timeline. -/
def next24_indices (times : List Int) (now : Int) : List Nat :=
  ((times.enum).filter (fun p => decide (now ≤ p.2) && decide (p.2 ≤ now + 24))).map
    (fun p => p.1)

/-- The rain decision of `main`:
`prob_trigger or mm_trigger`, where `prob_trigger` is
`any(precip_prob[i] >= prog_opad for i in idx24)` and `mm_trigger` is
`any(precip_mm[i] >= prog_opad_mm for i in idx24)`. Out-of-range indices
read as the list default (the script builds both arrays with the same
length as `times`, from which `idx24` is drawn). -/
def hasRain (precip_prob : List Int) (precip_mm : List ℚ) (idx24 : List Nat)
    (prog_opad : Int) (prog_opad_mm : ℚ) : Bool :=
  (idx24.any (fun i => decide (prog_opad ≤ precip_prob.getD i 0))) ||
  (idx24.any (fun i => decide (prog_opad_mm ≤ precip_mm.getD i 0)))

/-- All 24 hourly probabilities set to 10%, as in the example of the spec. -/
def exampleProbs : List Int := List.replicate 24 10

/-- The example timeline of the spec: hours 0–23 with `now = 0`. -/
def exampleTimes : List Int := (List.range 24).map Int.ofNat

lemma replicate_zero_getD (n i : Nat) : (List.replicate n (0:ℚ)).getD i 0 = 0 := by
  rw [List.getD_eq_getElem?_getD]
  exact List.getElem?_getD_replicate_default_eq (0:ℚ) n i

/-- C1. The rain signal is true iff the probability of some in-window sample
reaches `prog_opad` or the amount of some in-window sample reaches
`prog_opad_mm`; with all 24 samples at 10% / 0.0 mm under thresholds
50% / 0.3 mm the signal is false, and raising the probability at hour 5
to 60% makes it true. -/
theorem hasRain_iff_threshold (times : List Int) (now : Int)
    (precip_prob : List Int) (precip_mm : List ℚ) (prog_opad : Int)
    (prog_opad_mm : ℚ) :
    (hasRain precip_prob precip_mm (next24_indices times now) prog_opad prog_opad_mm = true ↔
      ((∃ i ∈ next24_indices times now, prog_opad ≤ precip_prob.getD i 0) ∨
       (∃ i ∈ next24_indices times now, prog_opad_mm ≤ precip_mm.getD i 0))) ∧
    hasRain exampleProbs (List.replicate 24 0) (next24_indices exampleTimes 0)
      50 (3/10) = false ∧
    hasRain (exampleProbs.set 5 60) (List.replicate 24 0)
      (next24_indices exampleTimes 0) 50 (3/10) = true := by
  refine ⟨?_, ?_, ?_⟩
  · simp [hasRain, List.any_eq_true]
  · simp only [hasRain, replicate_zero_getD,
      decide_eq_false (show ¬ ((3/10 : ℚ) ≤ 0) by norm_num)]
    decide
  · simp only [hasRain, replicate_zero_getD,
      decide_eq_false (show ¬ ((3/10 : ℚ) ≤ 0) by norm_num)]
    decide

/-- Value of `(l.set j v).getD i d` by cases on whether the write lands. -/
lemma getD_set_eval {α : Type} (l : List α) (j i : Nat) (v d : α) :
    (l.set j v).getD i d =
      if j = i ∧ j < l.length then v else l.getD i d := by
  induction l generalizing i j with
  | nil => simp [List.set]
  | cons a t ih =>
      cases j with
      | zero =>
          cases i with
          | zero => simp
          | succ i => simp
      | succ j =>
          cases i with
          | zero => simp
          | succ i =>
              simp only [List.set, List.getD_cons_succ, ih, List.length_cons]
              by_cases h : j = i ∧ j < t.length
              · rw [if_pos h, if_pos ⟨by omega, by omega⟩]
              · rw [if_neg h, if_neg (by omega)]

/-- C4. The rain signal is monotonic: replacing the probability of one sample or
the amount of one sample with a larger value never flips the signal from true
to false. -/
theorem hasRain_monotone (precip_prob : List Int) (precip_mm : List ℚ)
    (idx24 : List Nat) (prog_opad : Int) (prog_opad_mm : ℚ) (j : Nat)
    (p' : Int) (m' : ℚ)
    (hp : precip_prob.getD j 0 ≤ p') (hm : precip_mm.getD j 0 ≤ m')
    (h : hasRain precip_prob precip_mm idx24 prog_opad prog_opad_mm = true) :
    hasRain (precip_prob.set j p') precip_mm idx24 prog_opad prog_opad_mm = true ∧
    hasRain precip_prob (precip_mm.set j m') idx24 prog_opad prog_opad_mm = true := by
  simp only [hasRain, Bool.or_eq_true, List.any_eq_true, decide_eq_true_eq] at h ⊢
  constructor
  · rcases h with ⟨i, hi, hv⟩ | hmm
    · left
      refine ⟨i, hi, ?_⟩
      rw [getD_set_eval]
      by_cases hji : j = i ∧ j < precip_prob.length
      · rw [if_pos hji]
        exact le_trans (hji.1 ▸ hv) hp
      · rw [if_neg hji]; exact hv
    · right; exact hmm
  · rcases h with hpp | ⟨i, hi, hv⟩
    · left; exact hpp
    · right
      refine ⟨i, hi, ?_⟩
      rw [getD_set_eval]
      by_cases hji : j = i ∧ j < precip_mm.length
      · rw [if_pos hji]
        exact le_trans (hji.1 ▸ hv) hm
      · rw [if_neg hji]; exact hv

/-- Witness for C4 at a concrete forecast: one sample at 60% rain,
raising the probability to 70 and the amount to 1 keeps the signal true. -/
theorem hasRain_monotone_witness :
    hasRain ([60].set 0 70) [0] [0] 50 1 = true ∧
    hasRain [60] ([(0:ℚ)].set 0 1) [0] 50 1 = true :=
  hasRain_monotone [60] [0] [0] 50 1 0 70 1 (by decide)
    (by norm_num) (by decide)

/-- Append `item` when absent, as `unique_add(lst, item)` does; the Bool
reports whether the list changed (the Python function mutates in place
and returns the flag; here the new list is returned alongside it). -/
def unique_add (lst : List Int) (item : Int) : List Int × Bool :=
  if item ∈ lst then (lst, false) else (lst ++ [item], true)

/-- One inbound Telegram update as `main` reads it: `update_id`,
`message.chat.id` and `message.text`, each possibly absent or
(for `chat.id`) of a wrong type. -/
structure TgUpdate where
  update_id : Option Int
  chat_id : Option Int
  text : Option String
  deriving DecidableEq, Repr

/-- ASCII lowercasing of one character, the fragment of Python
`str.lower` these commands exercise. -/
def lowerChar (c : Char) : Char :=
  if 'A' ≤ c ∧ c ≤ 'Z' then Char.ofNat (c.toNat + 32) else c

/-- Normalization of an inbound message text before command comparison:
the text (empty when absent) with surrounding whitespace stripped, then
lowercased. -/
def normalizeText (t : Option String) : String :=
  ⟨(stripChars (t.getD "").data).map lowerChar⟩

/-- Loop state of the `for item in upd["result"]` loop: the evolving
subscriber list, the running `max_update_id`, and the accumulated
`new_subs` / `removed_subs`. -/
structure UpdAcc where
  subs : List Int
  maxUid : Option Int
  newSubs : List Int
  removedSubs : List Int
  deriving DecidableEq, Repr

/-- The update to `max_update_id` performed at the top of each loop
iteration: `if max_update_id is None or (isinstance(uid, int) and
uid > max_update_id): max_update_id = uid`. -/
def combineUid (m u : Option Int) : Option Int :=
  match m, u with
  | Option.none, u => u
  | some m, Option.none => some m
  | some m, some u => if m < u then some u else some m

/-- One iteration of the update-processing loop in `main`. -/
def stepUpdate (acc : UpdAcc) (item : TgUpdate) : UpdAcc :=
  let maxUid := combineUid acc.maxUid item.update_id
  let tl := normalizeText item.text
  match item.chat_id with
  | Option.none => { acc with maxUid := maxUid }
  | some cid =>
      if tl = "/start" then
        let r := unique_add acc.subs cid
        if r.2 then
          { subs := r.1, maxUid := maxUid, newSubs := acc.newSubs ++ [cid],
            removedSubs := acc.removedSubs }
        else
          { acc with subs := r.1, maxUid := maxUid }
      else if tl = "/stop" then
        if cid ∈ acc.subs then
          { subs := acc.subs.erase cid, maxUid := maxUid,
            newSubs := acc.newSubs, removedSubs := acc.removedSubs ++ [cid] }
        else { acc with maxUid := maxUid }
      else { acc with maxUid := maxUid }

/-- The whole `for item in upd["result"]` loop, started from the stored
subscriber list and stored `last_update_id`. -/
def processUpdates (subs : List Int) (last : Option Int)
    (updates : List TgUpdate) : UpdAcc :=
  updates.foldl stepUpdate ⟨subs, last, [], []⟩

/-- The persisted state file (`DEFAULT_STATE` keys). -/
structure PState where
  rain_state : Option Bool
  subscribers : List Int
  last_update_id : Option Int
  last_status_text : Option String
  deriving DecidableEq, Repr

/-- The forecast payload fields `main` reads: `hourly.time` (hours on a
common timeline) and the raw `precipitation` / `precipitation_probability`
arrays, entries possibly malformed. -/
structure ForecastData where
  times : List Int
  precipRaw : List PyVal
  probRaw : List PyVal
  deriving DecidableEq, Repr

/-- Everything one invocation of `main` consumes: wall clock, CLI
arguments, loaded state, the fetched update batch, geocoded location
name and forecast payload. -/
structure RunInput where
  hour : Nat
  minute : Nat
  nowT : Int
  token : String
  seeds : List Int
  st : PState
  updates : List TgUpdate
  locName : String
  fc : ForecastData
  prog_opad : Int
  prog_opad_mm : ℚ
  deriving DecidableEq, Repr

/-- Everything one invocation of `main` produces: the exit code, the
state written by `save_state` (`Option.none` when the run exits before
saving), and the messages of each send block (`/stop` confirmations,
welcomes to fresh `/start`s, and the state-change notification with its
flag `send_rain` and text `rain_msg`). -/
structure RunOut where
  exitCode : Nat
  finalState : Option PState
  goodbyes : List (Int × String)
  welcomes : List (Int × String)
  rainNotify : Bool
  rainMsg : Option String
  rainSends : List (Int × String)
  deriving DecidableEq, Repr

/-- The night-break test of `main`:
`(now.hour >= 22) or (now.hour < 6) or (now.hour == 6 and now.minute <= 59)`. -/
def nightBreak (hour minute : Nat) : Bool :=
  decide (22 ≤ hour) || decide (hour < 6) ||
    (decide (hour = 6) && decide (minute ≤ 59))

/-- Seeding of `--tg-chat` ids into the stored subscriber list via
`unique_add`, before the update feed is processed. -/
def seedSubs (subs seeds : List Int) : List Int :=
  seeds.foldl (fun l c => (unique_add l c).1) subs

/-- The precipitation array: each raw entry coerced by `_to_float(x, 0.0)`. -/
def precipMmOf (inp : RunInput) : List ℚ :=
  inp.fc.precipRaw.map (fun x => to_float x 0)

/-- The probability array: each raw entry coerced by `int(_to_float(x, 0.0))`. -/
def precipProbOf (inp : RunInput) : List Int :=
  inp.fc.probRaw.map (fun x => pyInt (to_float x 0))

/-- Result of the update-processing loop for a given run input. -/
def updResult (inp : RunInput) : UpdAcc :=
  processUpdates (seedSubs inp.st.subscribers inp.seeds)
    inp.st.last_update_id inp.updates

/-- The `has_rain` decision of this run. -/
def computedSignal (inp : RunInput) : Bool :=
  hasRain (precipProbOf inp) (precipMmOf inp)
    (next24_indices inp.fc.times inp.nowT) inp.prog_opad inp.prog_opad_mm

/-- The current status text: the location name in brackets followed by
the core message, as built for `current_status_text`. -/
def statusTextOf (inp : RunInput) : String :=
  "[" ++ inp.locName ++ "] " ++
    (if computedSignal inp then "Deszcz w prognozie w ciągu 24 godzin."
     else "Brak deszczu przez najbliższe 24h.")

/-- The state-change block of `main`: from the stored `rain_state` and the
computed signal, the new `rain_state`, the `send_rain` flag and
`rain_msg`. -/
def rainDecision (prev : Option Bool) (signal : Bool) (statusText : String) :
    Option Bool × Bool × Option String :=
  match prev with
  | Option.none => (some signal, true, some statusText)
  | some b =>
      if b != signal then (some signal, true, some statusText)
      else (some b, false, Option.none)

/-- Recipients of the state-change send: the subscriber list united with
the seed ids, as a set (order is immaterial, membership is what the send
loop uses). -/
def allIds (inp : RunInput) : List Int :=
  ((updResult inp).subs ++ inp.seeds).dedup

/-- One invocation of `main`, as a function from its inputs to its exit
code, saved state and emitted messages. -/
def runMain (inp : RunInput) : RunOut :=
  if nightBreak inp.hour inp.minute then
    ⟨0, Option.none, [], [], false, Option.none, []⟩
  else if inp.token = "" then
    ⟨2, Option.none, [], [], false, Option.none, []⟩
  else
    let r := updResult inp
    let last' : Option Int :=
      match r.maxUid with
      | some m => some m
      | Option.none => inp.st.last_update_id
    let goodbyes := r.removedSubs.map
      (fun c => (c, "Zostałeś wypisany z alertów."))
    let statusText := statusTextOf inp
    let welcomes := r.newSubs.map (fun c => (c, statusText))
    let d := rainDecision inp.st.rain_state (computedSignal inp) statusText
    let rainSends :=
      if d.2.1 then (allIds inp).map (fun c => (c, statusText)) else []
    ⟨0, some ⟨d.1, r.subs, last', some statusText⟩, goodbyes, welcomes,
      d.2.1, d.2.2, rainSends⟩

/-- A run landing inside the night window (23:15), with otherwise
ordinary inputs. -/
def nightInput : RunInput :=
  ⟨23, 15, 0, "t", [], ⟨some false, [111], some 4, Option.none⟩, [],
    "Szczecin", ⟨[], [], []⟩, 50, 0⟩

/-- C9. In the night window (hour ≥ 22, hour < 6, or hour = 6 at any
valid minute) the run exits with status 0 before doing anything: no
state is saved (`finalState = Option.none`, so the persisted state is
untouched) and no message of any kind is emitted. -/
theorem night_window_exits (inp : RunInput) (hm : inp.minute ≤ 59)
    (h : 22 ≤ inp.hour ∨ inp.hour < 6 ∨ inp.hour = 6) :
    runMain inp = ⟨0, Option.none, [], [], false, Option.none, []⟩ ∧
    nightBreak inp.hour inp.minute = true := by
  have hn : nightBreak inp.hour inp.minute = true := by
    rcases h with h | h | h <;> simp [nightBreak, h, hm]
  exact ⟨by simp [runMain, hn], hn⟩

/-- Witness for C9 at 23:15. -/
theorem night_window_exits_witness :
    runMain nightInput = ⟨0, Option.none, [], [], false, Option.none, []⟩ ∧
    nightBreak nightInput.hour nightInput.minute = true :=
  night_window_exits nightInput (by decide) (Or.inl (by decide))

lemma statusTextOf_ne_empty (inp : RunInput) : statusTextOf inp ≠ "" := by
  intro h
  have := congrArg String.length h
  simp only [statusTextOf, String.length_append,
    show ("[" : String).length = 1 from rfl,
    show ("] " : String).length = 2 from rfl,
    show ("" : String).length = 0 from rfl] at this
  omega

/-- C3. On a run with no stored rain state (`rain_state` is `None`) that
reaches the decision (not night break, token present), the current-status
notification is emitted with a non-empty text and the computed signal is
recorded in the saved state. -/
theorem first_run_notifies (inp : RunInput)
    (hn : nightBreak inp.hour inp.minute = false) (ht : ¬ inp.token = "")
    (hr : inp.st.rain_state = Option.none) :
    (runMain inp).rainNotify = true ∧
    (runMain inp).rainMsg = some (statusTextOf inp) ∧
    statusTextOf inp ≠ "" ∧
    ∃ st', (runMain inp).finalState = some st' ∧
      st'.rain_state = some (computedSignal inp) := by
  refine ⟨?_, ?_, statusTextOf_ne_empty inp, ?_⟩ <;>
    simp [runMain, hn, ht, hr, rainDecision]

/-- A first run (no stored rain state) at noon with a clear forecast. -/
def firstRunInput : RunInput :=
  ⟨12, 0, 0, "t", [], ⟨Option.none, [111], Option.none, Option.none⟩, [],
    "Szczecin", ⟨[0], [PyVal.num 0], [PyVal.num 0]⟩, 50, 1⟩

/-- Witness for C3 at `firstRunInput`. -/
theorem first_run_notifies_witness :
    (runMain firstRunInput).rainNotify = true ∧
    (runMain firstRunInput).rainMsg = some (statusTextOf firstRunInput) ∧
    statusTextOf firstRunInput ≠ "" ∧
    ∃ st', (runMain firstRunInput).finalState = some st' ∧
      st'.rain_state = some (computedSignal firstRunInput) :=
  first_run_notifies firstRunInput (by decide) (by decide) rfl

/-- The subscriber-batch example of the spec: stored subscribers 111 and 222,
then `/start` from 333 (update 5) and `/stop` from 111 (update 6). -/
def batchInput : RunInput :=
  ⟨12, 0, 0, "t", [], ⟨some false, [111, 222], Option.none, Option.none⟩,
    [⟨some 5, some 333, some "/start"⟩, ⟨some 6, some 111, some "/stop"⟩],
    "Szczecin", ⟨[], [], []⟩, 50, 0⟩

/-- C5. Processing that batch yields subscribers 222 and 333, cursor 6,
a welcome (current status) to 333 and a goodbye confirmation to 111. -/
theorem subscriber_batch_example :
    ∃ st', (runMain batchInput).finalState = some st' ∧
      st'.subscribers = [222, 333] ∧ st'.last_update_id = some 6 ∧
      (runMain batchInput).welcomes =
        [(333, "[Szczecin] Brak deszczu przez najbliższe 24h.")] ∧
      (runMain batchInput).goodbyes =
        [(111, "Zostałeś wypisany z alertów.")] := by
  refine ⟨⟨some false, [222, 333], some 6,
    some "[Szczecin] Brak deszczu przez najbliższe 24h."⟩, ?_, rfl, rfl, ?_, ?_⟩ <;>
    decide

/-- C2. With a stored rain state, the state-change notification fires iff
the computed signal differs from the stored one: nothing is emitted when
unchanged, every subscriber gets the status text when changed, and in
particular RAIN→NO_RAIN fires on the first run computing no rain. -/
theorem change_detection (inp : RunInput) (b : Bool)
    (hn : nightBreak inp.hour inp.minute = false) (ht : ¬ inp.token = "")
    (hr : inp.st.rain_state = some b) :
    ((runMain inp).rainNotify = true ↔ b ≠ computedSignal inp) ∧
    (b = computedSignal inp →
      (runMain inp).rainSends = [] ∧ (runMain inp).rainMsg = Option.none) ∧
    (b ≠ computedSignal inp →
      ∀ c ∈ (updResult inp).subs,
        (c, statusTextOf inp) ∈ (runMain inp).rainSends) ∧
    (b = true → computedSignal inp = false →
      (runMain inp).rainNotify = true) := by
  refine ⟨?_, ?_, ?_, ?_⟩
  · by_cases hbc : b = computedSignal inp <;>
      simp [runMain, hn, ht, hr, rainDecision, bne_iff_ne, hbc]
  · intro hbc
    simp [runMain, hn, ht, hr, rainDecision, bne_iff_ne, hbc]
  · intro hbc c hc
    simp [runMain, hn, ht, hr, rainDecision, bne_iff_ne, hbc, allIds,
      List.mem_dedup]
    exact Or.inl hc
  · intro hb hsig
    have hbc : b ≠ computedSignal inp := by rw [hb, hsig]; simp
    simp [runMain, hn, ht, hr, rainDecision, bne_iff_ne, hbc]

/-- A run whose stored state says no rain while the forecast now shows a
100% sample inside the window. -/
def changeInput : RunInput :=
  ⟨12, 0, 0, "t", [], ⟨some false, [111], Option.none, Option.none⟩, [],
    "Szczecin", ⟨[0], [PyVal.num 0], [PyVal.num 100]⟩, 50, 1⟩

/-- Witness for C2 at `changeInput` with stored state `false`. -/
theorem change_detection_witness :
    (((runMain changeInput).rainNotify = true ↔
        false ≠ computedSignal changeInput) ∧
      (false = computedSignal changeInput →
        (runMain changeInput).rainSends = [] ∧
        (runMain changeInput).rainMsg = Option.none) ∧
      (false ≠ computedSignal changeInput →
        ∀ c ∈ (updResult changeInput).subs,
          (c, statusTextOf changeInput) ∈ (runMain changeInput).rainSends) ∧
      (false = true → computedSignal changeInput = false →
        (runMain changeInput).rainNotify = true)) :=
  change_detection changeInput false (by decide) (by decide) rfl

lemma stepUpdate_maxUid (acc : UpdAcc) (item : TgUpdate) :
    (stepUpdate acc item).maxUid = combineUid acc.maxUid item.update_id := by
  rcases item with ⟨uid, cid, txt⟩
  rcases cid with _ | c
  · rfl
  · simp only [stepUpdate]
    by_cases h1 : normalizeText txt = "/start"
    · simp only [h1, if_pos, unique_add]
      by_cases h2 : c ∈ acc.subs <;> simp [h2]
    · by_cases h2 : normalizeText txt = "/stop"
      · simp only [h1, h2, if_neg, if_pos]
        by_cases h3 : c ∈ acc.subs <;> simp [h3]
      · simp [h1, h2]

lemma stepUpdate_nodup (acc : UpdAcc) (item : TgUpdate)
    (h : acc.subs.Nodup) : (stepUpdate acc item).subs.Nodup := by
  rcases item with ⟨uid, cid, txt⟩
  rcases cid with _ | c
  · exact h
  · simp only [stepUpdate]
    by_cases h1 : normalizeText txt = "/start"
    · simp only [h1, if_pos, unique_add]
      by_cases h2 : c ∈ acc.subs
      · simp [h2, h]
      · simp only [h2, if_neg, if_pos]
        simp [List.nodup_append, h, h2]
    · by_cases h2 : normalizeText txt = "/stop"
      · simp only [h1, h2, if_neg, if_pos]
        by_cases h3 : c ∈ acc.subs
        · simp only [h3, if_pos]
          exact h.erase c
        · simp [h3, h]
      · simp [h1, h2, h]

lemma combineUid_mono (m : Int) (u : Option Int) :
    ∃ m', combineUid (some m) u = some m' ∧ m ≤ m' := by
  rcases u with _ | u
  · exact ⟨m, rfl, le_refl m⟩
  · by_cases h : m < u
    · exact ⟨u, by simp [combineUid, h], le_of_lt h⟩
    · exact ⟨m, by simp [combineUid, h], le_refl m⟩

lemma combineUid_idem (m u : Option Int) :
    combineUid (combineUid m u) u = combineUid m u := by
  rcases m with _ | m <;> rcases u with _ | u <;>
    simp [combineUid, lt_irrefl]
  by_cases h : m < u <;> simp [h, combineUid, lt_irrefl]

lemma foldl_stepUpdate_nodup (updates : List TgUpdate) (acc : UpdAcc)
    (h : acc.subs.Nodup) : (updates.foldl stepUpdate acc).subs.Nodup := by
  induction updates generalizing acc with
  | nil => exact h
  | cons u rest ih => exact ih _ (stepUpdate_nodup _ _ h)

lemma foldl_stepUpdate_maxUid_mono (updates : List TgUpdate) (acc : UpdAcc)
    (m : Int) (h : acc.maxUid = some m) :
    ∃ m', (updates.foldl stepUpdate acc).maxUid = some m' ∧ m ≤ m' := by
  induction updates generalizing acc m with
  | nil => exact ⟨m, h, le_refl m⟩
  | cons u rest ih =>
      obtain ⟨m1, hm1, hle1⟩ := combineUid_mono m u.update_id
      have hstep : (stepUpdate acc u).maxUid = some m1 := by
        rw [stepUpdate_maxUid, h, hm1]
      obtain ⟨m2, hm2, hle2⟩ := ih _ m1 hstep
      exact ⟨m2, hm2, le_trans hle1 hle2⟩

lemma stepUpdate_start_mem (acc : UpdAcc) (item : TgUpdate) (c : Int)
    (hc : item.chat_id = some c) (ht : normalizeText item.text = "/start") :
    c ∈ (stepUpdate acc item).subs := by
  simp only [stepUpdate, hc, ht, if_pos, unique_add]
  by_cases h : c ∈ acc.subs <;> simp [h]

lemma stepUpdate_start_idem (acc : UpdAcc) (item : TgUpdate)
    (ht : normalizeText item.text = "/start") :
    stepUpdate (stepUpdate acc item) item = stepUpdate acc item := by
  rcases item with ⟨uid, cid, txt⟩
  rcases cid with _ | c
  · simp [stepUpdate, combineUid_idem]
  · by_cases hm : c ∈ acc.subs <;>
      simp [stepUpdate, ht, unique_add, hm, combineUid_idem]

/-- Counterexample to C6 as stated for every starting state: the code
never deduplicates a subscriber list that is already duplicated when
loaded, so processing a batch in state `[7, 7]` leaves the duplicate. -/
theorem subscribers_nodup_counterexample :
    ¬ (processUpdates [7, 7] Option.none []).subs.Nodup := by
  decide

/-- C6 (amended). Provided the subscriber list holds no duplicates before
the batch is processed — which is true of every state the program itself
writes — it holds none afterwards; a stored cursor never decreases; and
processing the same `/start` message a second time changes nothing. -/
theorem ledger_invariants (subs : List Int) (last : Option Int)
    (updates : List TgUpdate) (h : subs.Nodup) :
    (processUpdates subs last updates).subs.Nodup ∧
    (∀ m, last = some m →
      ∃ m', (processUpdates subs last updates).maxUid = some m' ∧ m ≤ m') ∧
    (∀ u, normalizeText u.text = "/start" →
      processUpdates subs last (updates ++ [u, u]) =
      processUpdates subs last (updates ++ [u])) := by
  refine ⟨foldl_stepUpdate_nodup _ _ h, ?_, ?_⟩
  · intro m hm
    exact foldl_stepUpdate_maxUid_mono _ _ m hm
  · intro u hu
    unfold processUpdates
    rw [List.foldl_append, List.foldl_append]
    simp [stepUpdate_start_idem _ _ hu]

/-- Witness for C6 (amended) on the stored state `[111, 222]`, cursor 3. -/
theorem ledger_invariants_witness :
    (processUpdates [111, 222] (some 3) []).subs.Nodup ∧
    (∀ m, (some 3 : Option Int) = some m →
      ∃ m', (processUpdates [111, 222] (some 3) []).maxUid = some m' ∧
        m ≤ m') ∧
    (∀ u, normalizeText u.text = "/start" →
      processUpdates [111, 222] (some 3) ([] ++ [u, u]) =
      processUpdates [111, 222] (some 3) ([] ++ [u])) :=
  ledger_invariants [111, 222] (some 3) [] (by decide)

/-- C10. Command texts are stripped and lowercased before comparison, so
"/START" and " /stop " act as the commands; a message whose normalized
text is neither command, or whose chat id is not an integer, leaves the
subscriber list unchanged. -/
theorem command_normalization :
    normalizeText (some "/START") = "/start" ∧
    normalizeText (some " /stop ") = "/stop" ∧
    (∀ (subs : List Int) (last : Option Int) (uid cid : Option Int)
      (t u : Option String), normalizeText t = normalizeText u →
      processUpdates subs last [⟨uid, cid, t⟩] =
      processUpdates subs last [⟨uid, cid, u⟩]) ∧
    (∀ (subs : List Int) (last : Option Int) (item : TgUpdate),
      normalizeText item.text ≠ "/start" →
      normalizeText item.text ≠ "/stop" →
      (processUpdates subs last [item]).subs = subs) ∧
    (∀ (subs : List Int) (last : Option Int) (item : TgUpdate),
      item.chat_id = Option.none →
      (processUpdates subs last [item]).subs = subs) := by
  refine ⟨by decide, by decide, ?_, ?_, ?_⟩
  · intro subs last uid cid t u hnorm
    rcases cid with _ | c <;> simp [processUpdates, stepUpdate, hnorm]
  · intro subs last item h1 h2
    rcases item with ⟨uid, cid, txt⟩
    rcases cid with _ | c
    · rfl
    · simp at h1 h2
      simp [processUpdates, stepUpdate, h1, h2]
  · intro subs last item hc
    simp [processUpdates, stepUpdate, hc]

/-- Witness for C10: a non-command message from chat 9 leaves the
subscriber list `[1]` unchanged. -/
theorem command_normalization_witness :
    (processUpdates [1] Option.none
      [⟨some 2, some 9, some "hello"⟩]).subs = [1] :=
  command_normalization.2.2.2.1 [1] Option.none ⟨some 2, some 9, some "hello"⟩
    (by decide) (by decide)

/-- C8. `_to_float` yields the supplied default whenever `float()` would
raise, and the precipitation array of the evaluator is exactly the pointwise
coercion, so a malformed entry enters the decision as 0. -/
theorem to_float_default (x : PyVal) (d : ℚ) (inp : RunInput) (i : Nat)
    (h : floatOf x = Option.none) :
    to_float x d = d ∧
    (precipMmOf inp).getD i 0 =
      to_float (inp.fc.precipRaw.getD i PyVal.none) 0 ∧
    (floatOf (inp.fc.precipRaw.getD i PyVal.none) = Option.none →
      (precipMmOf inp).getD i 0 = 0) := by
  have hmap : (precipMmOf inp).getD i 0 =
      to_float (inp.fc.precipRaw.getD i PyVal.none) 0 := by
    rcases lt_or_ge i inp.fc.precipRaw.length with hi | hi
    · rw [List.getD_eq_getElem _ _ (by simpa [precipMmOf] using hi),
        List.getD_eq_getElem _ _ hi]
      simp [precipMmOf]
    · rw [List.getD_eq_default _ _ (by simpa [precipMmOf] using hi),
        List.getD_eq_default _ _ hi]
      simp [to_float, floatOf]
  refine ⟨by simp [to_float, h], hmap, ?_⟩
  intro hbad
  rw [hmap]
  simp only [to_float]
  rw [hbad]
  rfl

/-- Witness for C8: the string "abc" is unconvertible, and with a raw
precipitation array `[None]` the coerced array reads 0. -/
theorem to_float_default_witness :
    to_float (PyVal.str "abc") 5 = 5 ∧
    (precipMmOf firstRunInput).getD 0 0 =
      to_float (firstRunInput.fc.precipRaw.getD 0 PyVal.none) 0 ∧
    (floatOf (firstRunInput.fc.precipRaw.getD 0 PyVal.none) = Option.none →
      (precipMmOf firstRunInput).getD 0 0 = 0) :=
  to_float_default (PyVal.str "abc") 5 firstRunInput 0 (by decide)

/-- State of the notifier in the debounce variant: the current rain state and
the consecutive-detection counter. -/
structure DebounceState where
  rain : Bool
  count : Nat
  deriving DecidableEq, Repr

/-- Modelled from the spec: the debounce variant of the notification state
machine is code of this repository not among the provided sources (only
the plain emit-on-any-change variant in `pogoda_alert.py` is). Spec §4.2(b):
the consecutive-detection counter is incremented each run the raw signal
is true and reset to 0 otherwise; entering RAIN requires the
immediate-override condition or `need` consecutive detections; leaving
RAIN is immediate and unconditional. Returns the new state and whether a
notification fires. -/
def debounceStep (need : Nat) (override signal : Bool)
    (s : DebounceState) : DebounceState × Bool :=
  let count := if signal then s.count + 1 else 0
  if s.rain then
    if signal then (⟨true, count⟩, false) else (⟨false, count⟩, true)
  else
    if signal && (override || decide (need ≤ count)) then
      (⟨true, count⟩, true)
    else (⟨false, count⟩, false)

/-- C7. With `DEBOUNCE_NEED = 2` and no immediate override, from NO_RAIN
with counter 0: one detecting run fires nothing (counter 1); a second
consecutive detecting run fires the entry notification; a detecting run
followed by a non-detecting run fires nothing and resets the counter
to 0. -/
theorem debounce_two_runs (s : DebounceState) (h0 : s.rain = false)
    (hc : s.count = 0) :
    debounceStep 2 false true s = (⟨false, 1⟩, false) ∧
    (debounceStep 2 false true (debounceStep 2 false true s).1).2 = true ∧
    (debounceStep 2 false true (debounceStep 2 false true s).1).1.rain = true ∧
    debounceStep 2 false false (debounceStep 2 false true s).1 =
      (⟨false, 0⟩, false) := by
  rcases s with ⟨r, c⟩
  simp only at h0 hc
  subst h0
  subst hc
  decide

/-- Witness for C7 at the NO_RAIN state with counter 0. -/
theorem debounce_two_runs_witness :
    debounceStep 2 false true ⟨false, 0⟩ = (⟨false, 1⟩, false) ∧
    (debounceStep 2 false true
      (debounceStep 2 false true ⟨false, 0⟩).1).2 = true ∧
    (debounceStep 2 false true
      (debounceStep 2 false true ⟨false, 0⟩).1).1.rain = true ∧
    debounceStep 2 false false (debounceStep 2 false true ⟨false, 0⟩).1 =
      (⟨false, 0⟩, false) :=
  debounce_two_runs ⟨false, 0⟩ rfl rfl

end PogodaAlert
